import Mathlib

/-!
Verification development for the trivia API backend
(`backend/flaskr/__init__.py`).

The handlers are shallowly embedded as pure Lean functions.  The
persistence layer (SQLAlchemy) is modelled as an explicit `List Question`
state threaded through each handler; HTTP responses become explicit sum
types.  Python exception control flow (the `abort(...)` calls and the bare
`except:` blocks) is modelled with `Except PyExc`: a `try:` body returns
`Except PyExc β` together with the (possibly mutated) store, and the
surrounding handler translates any escaped exception exactly as the
source's `except:` clause does.  Randomness in the quiz endpoint is made
explicit as a draw sequence `ρ : Nat → Nat`; the draw at loop iteration
`i` is index `ρ i % pool.length`, which ranges over exactly the indices
`random.randrange(0, len(questions), 1)` can produce.
-/

/-- A stored `Question` row.  Fields other than the primary key are
optional because the create handler constructs rows directly from
`body.get(...)` results, which may be `None`. -/
structure Question where
  id : Nat
  question : Option String
  answer : Option String
  difficulty : Option Int
  category : Option Int
  deriving DecidableEq, Inhabited

/-- The JSON projection of a question returned to clients.
Modelled from the spec: `Question.format` is defined in the repository's
`models.py`, which is not under `src/`; per the spec a "formatted record"
is "the JSON-serializable projection of a stored entity exposed to
clients", i.e. the record's own fields. -/
structure FormattedQuestion where
  id : Nat
  question : Option String
  answer : Option String
  difficulty : Option Int
  category : Option Int
  deriving DecidableEq, Inhabited

/-- `question.format()` — the JSON projection of a stored row. -/
def Question.format (q : Question) : FormattedQuestion :=
  { id := q.id, question := q.question, answer := q.answer,
    difficulty := q.difficulty, category := q.category }

/-- A Python exception escaping a `try:` body. -/
inductive PyExc where
  /-- Raised by `abort(code)` (a werkzeug `HTTPException`). -/
  | httpError (code : Nat)
  /-- Raised by `one_or_none()` when more than one row matches. -/
  | multipleResultsFound
  deriving DecidableEq

/-- `QUESTIONS_PER_PAGE = 10`. -/
def QUESTIONS_PER_PAGE : Nat := 10

/-- Clamp one bound of a Python slice `l[a:b]` to an index into a list of
length `n`: a negative bound counts from the end (clamped below at 0), a
nonnegative bound is clamped above at `n`. -/
def pySliceIdx (n : Nat) (i : Int) : Nat :=
  if i < 0 then (i + n).toNat else min i.toNat n

/-- Python list slicing `l[a:b]` (step 1). -/
def pySlice (l : List α) (a b : Int) : List α :=
  (l.take (pySliceIdx l.length b)).drop (pySliceIdx l.length a)

/-- `paginate_questions(request, selection)`.  `page` is the request's
`page` query parameter (an `int`, default 1); the function formats every
row of `selection` and returns the Python slice
`questions[(page-1)*10 : (page-1)*10 + 10]`. -/
def paginate_questions (page : Int) (selection : List Question) : List FormattedQuestion :=
  let start := (page - 1) * (QUESTIONS_PER_PAGE : Int)
  let stop := start + (QUESTIONS_PER_PAGE : Int)
  let questions := selection.map Question.format
  pySlice questions start stop

/-- SQLAlchemy's `one_or_none()`: `none` for an empty result, the unique
row if there is exactly one, and a `MultipleResultsFound` exception
otherwise. -/
def one_or_none (l : List α) : Except PyExc (Option α) :=
  match l with
  | [] => Except.ok none
  | [a] => Except.ok (some a)
  | _ => Except.error PyExc.multipleResultsFound

/-- Insert a question before another with a `≥` id (used to model
`order_by(Question.id)`). -/
def insertById (q : Question) : List Question → List Question
  | [] => [q]
  | p :: rest => if q.id ≤ p.id then q :: p :: rest else p :: insertById q rest

/-- `Question.query.order_by(Question.id).all()`: the store sorted by id. -/
def sortById : List Question → List Question
  | [] => []
  | q :: rest => insertById q (sortById rest)

/-- Modelled from the spec: the persistence layer (`models.py`, not under
`src/`) assigns a fresh primary-key id on `insert()`; modelled as one more
than the largest id in the store (at least 1). -/
def freshId (db : List Question) : Nat :=
  db.foldr (fun q m => max (q.id + 1) m) 1

/-- Response body of a successful `DELETE /questions/<id>`. -/
structure DeleteBody where
  deleted : Nat
  questions : List FormattedQuestion
  total_questions : Nat
  deriving DecidableEq

/-- The `try:` body of `delete_question`.  `abort(404)` raises; the delete
re-queries and paginates the remaining rows.  Returns the resulting store
together with the body or the escaped exception. -/
def delete_question_try (db : List Question) (question_id : Nat) (page : Int) :
    List Question × Except PyExc DeleteBody :=
  match one_or_none (db.filter (fun q => q.id == question_id)) with
  | Except.error e => (db, Except.error e)
  | Except.ok none => (db, Except.error (PyExc.httpError 404))
  | Except.ok (some _) =>
      let db2 := db.filter (fun q => ! (q.id == question_id))
      (db2, Except.ok
        { deleted := question_id,
          questions := paginate_questions page (sortById db2),
          total_questions := db2.length })

/-- `delete_question`: the whole handler.  The bare `except:` clause
catches ANY exception escaping the `try:` body — including the `NotFound`
raised by `abort(404)` inside it — and calls `abort(422)`. -/
def delete_question (db : List Question) (question_id : Nat) (page : Int) :
    List Question × Except Nat DeleteBody :=
  match delete_question_try db question_id page with
  | (db2, Except.ok body) => (db2, Except.ok body)
  | (db2, Except.error _) => (db2, Except.error 422)

/-- Response body of a successful `POST /questions`. -/
structure CreateBody where
  created : Nat
  questions : List FormattedQuestion
  total_questions : Nat
  deriving DecidableEq

/-- The `try:` body of `create_question`: the row is constructed and
persisted by `question.insert()` FIRST; only then are the four fields
checked, and `abort(422)` raised if any is `None` — after the insert has
already happened, so the store keeps the row on that path. -/
def create_question_try (db : List Question) (new_question new_answer : Option String)
    (new_difficulty new_category : Option Int) (page : Int) :
    List Question × Except PyExc CreateBody :=
  let q : Question :=
    { id := freshId db, question := new_question, answer := new_answer,
      difficulty := new_difficulty, category := new_category }
  let db2 := db ++ [q]
  if new_question = none ∨ new_answer = none ∨ new_difficulty = none ∨ new_category = none then
    (db2, Except.error (PyExc.httpError 422))
  else
    (db2, Except.ok
      { created := q.id,
        questions := paginate_questions page (sortById db2),
        total_questions := db2.length })

/-- `create_question`: the whole handler; the bare `except:` turns any
escaped exception into a 422 response, leaving the store as the `try:`
body left it. -/
def create_question (db : List Question) (new_question new_answer : Option String)
    (new_difficulty new_category : Option Int) (page : Int) :
    List Question × Except Nat CreateBody :=
  match create_question_try db new_question new_answer new_difficulty new_category page with
  | (db2, Except.ok body) => (db2, Except.ok body)
  | (db2, Except.error _) => (db2, Except.error 422)

/-- Response body of a successful `POST /questions/search`. -/
structure SearchBody where
  questions : List FormattedQuestion
  total_questions : Nat
  deriving DecidableEq

/-- Lower-case a string character by character. -/
def lowerChars (s : String) : List Char := s.toList.map Char.toLower

/-- Whether `needle` occurs contiguously inside `hay`. -/
def containsSub (needle hay : List Char) : Bool :=
  hay.tails.any (fun t => needle.isPrefixOf t)

/-- `Question.question.ilike('%term%')`: case-insensitive substring match
against the `question` text; a SQL `NULL` text matches nothing. -/
def ilikeMatch (t : String) (q : Question) : Bool :=
  match q.question with
  | some s => containsSub (lowerChars t) (lowerChars s)
  | none => false

/-- `search_questions`: a falsy search term (absent, or the empty string)
falls through to `abort(404)`; otherwise the matching rows are paginated
and returned with their total count — zero matches included. -/
def search_questions (db : List Question) (searchTerm : Option String) (page : Int) :
    Except Nat SearchBody :=
  match searchTerm with
  | some t =>
      if t = "" then Except.error 404
      else
        Except.ok
          { questions := paginate_questions page (db.filter (ilikeMatch t)),
            total_questions := (db.filter (ilikeMatch t)).length }
  | none => Except.error 404

/-- Outcome of `POST /quizzes`. -/
inductive QuizResult where
  /-- `abort(400)`: `previous_questions` or `quiz_category` missing. -/
  | badRequest
  /-- `{'success': True}` with no `question` key. -/
  | successNoQuestion
  /-- `{'success': True, 'question': ...}`. -/
  | successWith (question : FormattedQuestion)
  /-- The unhandled `AttributeError` from `[].format()`: `random_question`
  still holds its `[]` placeholder because the loop body never ran. -/
  | crash
  deriving DecidableEq

/-- The quiz candidate pool: all questions when the requested category id
is 0, otherwise the questions filtered by that category id. -/
def quizPool (db : List Question) (catId : Int) : List Question :=
  if catId = 0 then db else db.filter (fun q => q.category == some catId)

/-- The `for question in questions:` draw loop of `play_quiz`, iterating
at most `fuel` times (`fuel` starts at the pool length).  At iteration `i`
it draws `questions[random.randrange(0, len(questions), 1)]`, i.e. the
element at index `ρ i % pool.length`; it stops at the first drawn question
whose id is not in `previous_questions` (the source's `used = True; break`
— `used` has no other observable effect and the trailing
`if not used: pass` is dead code).  Returns the final value of
`random_question` (`none` standing for the initial `[]` placeholder when
the body never ran) together with the number of draws executed. -/
def quizLoopGo (pool : List Question) (prev : List Nat) (ρ : Nat → Nat) :
    Nat → Nat → Option Question → Option Question × Nat
  | _, 0, last => (last, 0)
  | i, fuel + 1, _ =>
      if (pool.getD (ρ i % pool.length) default).id ∈ prev then
        Prod.map id (· + 1)
          (quizLoopGo pool prev ρ (i + 1) fuel
            (some (pool.getD (ρ i % pool.length) default)))
      else (some (pool.getD (ρ i % pool.length) default), 1)

/-- `play_quiz`: aborts 400 when either input is absent; otherwise runs
the draw loop over the pool, THEN checks
`len(previous_questions) == total` (returning success with no question if
equal), and otherwise returns `random_question.format()` — a crash when
`random_question` still holds its `[]` placeholder.  The second component
counts the random draws executed. -/
def play_quiz (db : List Question) (previous_questions : Option (List Nat))
    (quiz_category : Option Int) (ρ : Nat → Nat) : QuizResult × Nat :=
  match previous_questions, quiz_category with
  | some prev, some catId =>
      (if prev.length = (quizPool db catId).length then QuizResult.successNoQuestion
       else
         match (quizLoopGo (quizPool db catId) prev ρ 0 (quizPool db catId).length none).1 with
         | some q => QuizResult.successWith q.format
         | none => QuizResult.crash,
       (quizLoopGo (quizPool db catId) prev ρ 0 (quizPool db catId).length none).2)
  | _, _ => (QuizResult.badRequest, 0)

/-- A concrete science question used by the concrete-input theorems. -/
def qA : Question :=
  { id := 1, question := some "What", answer := some "Ans", difficulty := some 1, category := some 1 }

/-- A second concrete question. -/
def qB : Question :=
  { id := 2, question := some "Where", answer := some "There", difficulty := some 1, category := some 1 }

/-- A third concrete question. -/
def qC : Question :=
  { id := 3, question := some "Who", answer := some "Them", difficulty := some 1, category := some 1 }

/-! ## Pagination lemmas -/

lemma pySliceIdx_natCast (n a : Nat) : pySliceIdx n (a : Int) = min a n := by
  unfold pySliceIdx
  rw [if_neg (Int.not_lt.mpr (Int.natCast_nonneg a))]
  simp

lemma pySlice_natCast (l : List α) (a b : Nat) :
    pySlice l (a : Int) (b : Int) = (l.drop a).take (b - a) := by
  unfold pySlice
  rw [pySliceIdx_natCast, pySliceIdx_natCast]
  have h1 : l.take (min b l.length) = l.take b := by
    rcases le_total b l.length with hb | hb
    · rw [min_eq_left hb]
    · rw [min_eq_right hb, List.take_length, List.take_of_length_le hb]
  rw [h1]
  have h2 : (l.take b).drop (min a l.length) = (l.take b).drop a := by
    rcases le_total a l.length with ha | ha
    · rw [min_eq_left ha]
    · rw [min_eq_right ha,
        List.drop_eq_nil_iff.mpr (List.length_take_le' b l),
        List.drop_eq_nil_iff.mpr (le_trans (List.length_take_le' b l) ha)]
  rw [h2, List.drop_take]

lemma paginate_natCast_succ (k : Nat) (sel : List Question) :
    paginate_questions ((k : Int) + 1) sel
      = ((sel.map Question.format).drop (k * 10)).take 10 := by
  simp only [paginate_questions, QUESTIONS_PER_PAGE]
  have h1 : ((k : Int) + 1 - 1) * ((10 : Nat) : Int) = ((k * 10 : Nat) : Int) := by
    push_cast; ring
  have h2 : ((k : Int) + 1 - 1) * ((10 : Nat) : Int) + ((10 : Nat) : Int)
      = ((k * 10 + 10 : Nat) : Int) := by
    push_cast; ring
  rw [h2, h1, pySlice_natCast]
  congr 1
  omega

lemma paginate_questions_nil (page : Int) : paginate_questions page [] = [] := by
  simp [paginate_questions, pySlice]

lemma flatten_take_chunks (l : List α) (k : Nat) :
    (((List.range k).map (fun i => (l.drop (i * 10)).take 10)).flatten) = l.take (k * 10) := by
  induction k with
  | zero => simp
  | succ n ih =>
      rw [List.range_succ, List.map_append, List.flatten_append, ih]
      simp only [List.map_cons, List.map_nil, List.flatten_cons, List.flatten_nil,
        List.append_nil]
      rw [← List.take_add]
      congr 1
      ring

/-- C5.  Corrected form: for every page `p ≥ 1` (the claim's "every
integer page number" fails at `p = 0`, see the counterexample),
`paginate_questions` returns exactly the slice `[(p-1)*10 : p*10)` of the
formatted items, hence exactly `min 10 (max 0 (N - (p-1)*10))` items, and
any page with `(p-1)*10 ≥ N` yields the empty list rather than an
error. -/
theorem paginate_questions_spec (p : Int) (sel : List Question) (hp : 1 ≤ p) :
    paginate_questions p sel
      = ((sel.map Question.format).drop (((p - 1) * 10).toNat)).take 10
    ∧ ((paginate_questions p sel).length : Int)
      = min 10 (max 0 ((sel.length : Int) - (p - 1) * 10))
    ∧ ((sel.length : Int) ≤ (p - 1) * 10 → paginate_questions p sel = []) := by
  obtain ⟨k, rfl⟩ : ∃ k : Nat, p = (k : Int) + 1 := ⟨(p - 1).toNat, by omega⟩
  have hmain := paginate_natCast_succ k sel
  have hcast : ((k : Int) + 1 - 1) * 10 = ((k * 10 : Nat) : Int) := by push_cast; ring
  have htn : (((k : Int) + 1 - 1) * 10).toNat = k * 10 := by
    rw [hcast, Int.toNat_ofNat]
  refine ⟨by rw [hmain, htn], ?_, ?_⟩
  · have hlen : (paginate_questions ((k : Int) + 1) sel).length
        = min 10 (sel.length - k * 10) := by
      rw [hmain, List.length_take, List.length_drop, List.length_map]
    rw [hlen, hcast]
    omega
  · intro h
    rw [hcast] at h
    have hN : sel.length ≤ k * 10 := by exact_mod_cast h
    rw [hmain, List.drop_eq_nil_iff.mpr (by rw [List.length_map]; exact hN)]
    simp

/-- C5 witness: the corrected statement evaluated at page 2 of a
one-question store. -/
theorem paginate_questions_spec_witness :
    (1 : Int) ≤ 2
    ∧ paginate_questions 2 [qA]
        = ((([qA] : List Question).map Question.format).drop ((((2 : Int) - 1) * 10).toNat)).take 10 :=
  ⟨by norm_num, (paginate_questions_spec 2 [qA] (by norm_num)).1⟩

/-- C5 counterexample: at the integer page number `p = 0` with a single
stored question, the claim's item-count formula
`min 10 (max 0 (N - (p-1)*10))` demands 10 items, but the code returns
the empty slice (Python's negative slice bounds clamp to the front of the
list), so the claim quantified over every integer page number is
false. -/
theorem paginate_questions_page_zero_counterexample :
    ¬ (((paginate_questions 0 [qA]).length : Int)
        = min 10 (max 0 ((([qA] : List Question).length : Int) - ((0 : Int) - 1) * 10))) := by
  decide

/-- C6.  Concatenating the pages `1, 2, …, ⌈N/10⌉` produced by
`paginate_questions`, in order, reconstructs the full ordered collection
(of formatted items, the projection under which the helper returns
them). -/
theorem paginate_questions_pages_reconstruct (sel : List Question) :
    (((List.range ((sel.length + 9) / 10)).map
        (fun i : Nat => paginate_questions ((i : Int) + 1) sel)).flatten)
      = sel.map Question.format := by
  have h : (fun i : Nat => paginate_questions ((i : Int) + 1) sel)
      = fun i : Nat => ((sel.map Question.format).drop (i * 10)).take 10 :=
    funext fun i => paginate_natCast_succ i sel
  rw [h, flatten_take_chunks]
  apply List.take_of_length_le
  rw [List.length_map]
  omega

/-! ## Quiz selector lemmas -/

lemma quizLoopGo_draws_le (pool : List Question) (prev : List Nat) (ρ : Nat → Nat) :
    ∀ fuel i last, (quizLoopGo pool prev ρ i fuel last).2 ≤ fuel := by
  intro fuel
  induction fuel with
  | zero => intro i last; simp [quizLoopGo]
  | succ n ih =>
      intro i last
      simp only [quizLoopGo]
      split
      · simp only [Prod.map_snd]
        exact Nat.add_le_add_right (ih (i + 1) _) 1
      · simp

lemma quizLoopGo_draws_pos (pool : List Question) (prev : List Nat) (ρ : Nat → Nat)
    (i fuel : Nat) (last : Option Question) :
    1 ≤ (quizLoopGo pool prev ρ i (fuel + 1) last).2 := by
  simp only [quizLoopGo]
  split
  · simp only [Prod.map_snd]
    omega
  · simp

lemma quizLoopGo_found (pool : List Question) (prev : List Nat) (ρ : Nat → Nat) :
    ∀ fuel i last,
      (∃ j, j < fuel ∧ (pool.getD (ρ (i + j) % pool.length) default).id ∉ prev) →
      ∃ q, (quizLoopGo pool prev ρ i fuel last).1 = some q ∧ q.id ∉ prev := by
  intro fuel
  induction fuel with
  | zero =>
      intro i last h
      obtain ⟨j, hj, _⟩ := h
      omega
  | succ n ih =>
      intro i last h
      by_cases hmem : (pool.getD (ρ i % pool.length) default).id ∈ prev
      · have h' : ∃ j, j < n ∧ (pool.getD (ρ ((i + 1) + j) % pool.length) default).id ∉ prev := by
          obtain ⟨j, hj, hnot⟩ := h
          cases j with
          | zero =>
              rw [Nat.add_zero] at hnot
              exact absurd hmem hnot
          | succ j2 =>
              refine ⟨j2, by omega, ?_⟩
              have e : (i + 1) + j2 = i + (j2 + 1) := by omega
              rw [e]
              exact hnot
        obtain ⟨q, hq, hqn⟩ := ih (i + 1) (some (pool.getD (ρ i % pool.length) default)) h'
        refine ⟨q, ?_, hqn⟩
        simp only [quizLoopGo]
        rw [if_pos hmem]
        simpa [Prod.map_fst] using hq
      · refine ⟨pool.getD (ρ i % pool.length) default, ?_, hmem⟩
        simp only [quizLoopGo]
        rw [if_neg hmem]

lemma play_quiz_draws_le_aux (db : List Question) (prev : List Nat) (catId : Int)
    (ρ : Nat → Nat) :
    (play_quiz db (some prev) (some catId) ρ).2 ≤ (quizPool db catId).length := by
  simp only [play_quiz]
  exact quizLoopGo_draws_le _ _ _ _ 0 none

/-- C7.  Corrected form: the draw loop is the source's
`for question in questions:` loop, so it performs at most pool-size
random draws; termination is guaranteed by the bound `pool.length`
(contrary to the claim, the retries are capped by the iteration over the
pool, though the loop may finish without having drawn an unseen
question). -/
theorem play_quiz_draws_le_pool_size (db : List Question) (prev : List Nat) (catId : Int)
    (ρ : Nat → Nat) :
    (play_quiz db (some prev) (some catId) ρ).2 ≤ (quizPool db catId).length :=
  play_quiz_draws_le_aux db prev catId ρ

/-- C7 counterexample: negation of the claim "termination is not
guaranteed by any bound depending on the pool size" — there IS a bound
depending only on the pool size (the identity bound) on the number of
random draws the handler performs, for every input and every draw
sequence. -/
theorem play_quiz_draw_bound_exists :
    ∃ f : Nat → Nat, ∀ (db : List Question) (prev : List Nat) (catId : Int) (ρ : Nat → Nat),
      (play_quiz db (some prev) (some catId) ρ).2 ≤ f (quizPool db catId).length :=
  ⟨fun n => n, fun db prev catId ρ => play_quiz_draws_le_aux db prev catId ρ⟩

/-- C3.  Corrected form: whenever `len(previous_questions)` equals the
pool size the handler does return `{success: true}` with no question
field, but it does NOT short-circuit before the draw loop: the exhaustion
check runs after the loop, which has already performed at least one
random draw whenever the pool is nonempty. -/
theorem play_quiz_exhausted_returns_no_question (db : List Question) (prev : List Nat)
    (catId : Int) (ρ : Nat → Nat) (h : prev.length = (quizPool db catId).length) :
    (play_quiz db (some prev) (some catId) ρ).1 = QuizResult.successNoQuestion
    ∧ (quizPool db catId ≠ [] → 1 ≤ (play_quiz db (some prev) (some catId) ρ).2) := by
  constructor
  · simp only [play_quiz]
    rw [if_pos h]
  · intro hne
    simp only [play_quiz]
    obtain ⟨n, hn⟩ : ∃ n, (quizPool db catId).length = n + 1 :=
      ⟨(quizPool db catId).length - 1, by have := List.length_pos.mpr hne; omega⟩
    rw [hn]
    exact quizLoopGo_draws_pos _ _ _ _ _ _

/-- C3 witness: a one-question pool whose only id is already in
`previous_questions`: the response carries no question and at least one
draw was executed. -/
theorem play_quiz_exhausted_witness :
    (play_quiz [qA] (some [1]) (some 0) (fun _ => 0)).1 = QuizResult.successNoQuestion
    ∧ 1 ≤ (play_quiz [qA] (some [1]) (some 0) (fun _ => 0)).2 := by
  have h := play_quiz_exhausted_returns_no_question [qA] [1] 0 (fun _ => 0) (by decide)
  exact ⟨h.1, h.2 (by decide)⟩

/-- C3 counterexample: with a one-question pool whose id is already in
`previous_questions`, the handler executes a random draw (the draw count
is 1, not 0), refuting "short-circuits before executing any random draw
of the draw loop". -/
theorem play_quiz_check_after_draws_counterexample :
    (play_quiz [qA] (some [1]) (some 0) (fun _ => 0)).2 ≠ 0
    ∧ ([1] : List Nat).length = (quizPool [qA] 0).length := by
  decide

/-- C2.  Corrected form: when both inputs are present,
`len(previous_questions)` differs from the pool size, and at least one of
the loop's (at most pool-size) random draws selects a question whose id
is not in `previous_questions`, the handler returns
`{success: true, question: q}` with `q.id` not a member of
`previous_questions`.  (Without that proviso the claim is false: see the
counterexample, where every draw lands on an already-seen question and
the handler returns it anyway.) -/
theorem play_quiz_returns_unseen_when_some_draw_unseen (db : List Question) (prev : List Nat)
    (catId : Int) (ρ : Nat → Nat)
    (hne : prev.length ≠ (quizPool db catId).length)
    (hhit : ∃ j, j < (quizPool db catId).length ∧
      ((quizPool db catId).getD (ρ j % (quizPool db catId).length) default).id ∉ prev) :
    ∃ q : Question,
      (play_quiz db (some prev) (some catId) ρ).1 = QuizResult.successWith q.format
      ∧ q.id ∉ prev := by
  have h0 : ∃ j, j < (quizPool db catId).length ∧
      ((quizPool db catId).getD (ρ (0 + j) % (quizPool db catId).length) default).id ∉ prev := by
    simpa using hhit
  obtain ⟨q, hq, hqn⟩ :=
    quizLoopGo_found (quizPool db catId) prev ρ (quizPool db catId).length 0 none h0
  refine ⟨q, ?_, hqn⟩
  simp only [play_quiz]
  rw [if_neg hne, hq]

/-- C2 witness: a draw sequence whose first draw picks the unseen
question id 3. -/
theorem play_quiz_returns_unseen_witness :
    ∃ q : Question,
      (play_quiz [qA, qB, qC] (some [1, 2]) (some 0) (fun _ => 2)).1
        = QuizResult.successWith q.format
      ∧ q.id ∉ ([1, 2] : List Nat) :=
  play_quiz_returns_unseen_when_some_draw_unseen [qA, qB, qC] [1, 2] 0 (fun _ => 2)
    (by decide) ⟨0, by decide, by decide⟩

/-- C2 counterexample: pool `{1, 2, 3}`, `previous_questions = [1, 2]`
(length 2 ≠ pool size 3), and a draw sequence that always draws index 0:
every draw lands on the already-seen question 1, the loop ends without
accepting, and the handler returns `{success: true, question: q}` with
`q.id = 1 ∈ previous_questions` — refuting the claim as stated. -/
theorem play_quiz_seen_question_counterexample :
    (play_quiz [qA, qB, qC] (some [1, 2]) (some 0) (fun _ => 0)).1
        = QuizResult.successWith (Question.format qA)
    ∧ qA.id ∈ ([1, 2] : List Nat)
    ∧ ([1, 2] : List Nat).length ≠ (quizPool [qA, qB, qC] 0).length := by
  decide

/-- C9.  For EVERY request with both inputs present whose candidate pool
is empty — any store, any category id, any `previous_questions`, any
draw sequence: an empty `previous_questions` yields `{success: true}`
with no question field and zero draws, while a nonempty
`previous_questions` makes the handler format the `[]` placeholder — an
unhandled exception (modelled by `QuizResult.crash`, a constructor
distinct from the 200 and from the 400/404/422 responses) — again with
zero random draws, since the loop body never executed. -/
theorem play_quiz_empty_pool_behavior (db : List Question) (catId : Int) (prev : List Nat)
    (ρ : Nat → Nat) (hpool : quizPool db catId = []) :
    (prev = [] → play_quiz db (some prev) (some catId) ρ = (QuizResult.successNoQuestion, 0))
    ∧ (prev ≠ [] → play_quiz db (some prev) (some catId) ρ = (QuizResult.crash, 0)) := by
  constructor
  · rintro rfl
    simp [play_quiz, hpool, quizLoopGo]
  · intro hne
    have hlen : prev.length ≠ 0 := by
      simpa [List.length_eq_zero] using hne
    simp [play_quiz, hpool, quizLoopGo, hlen]

/-- C9 witness: a store whose only question sits in category 1, queried
for category 5 (an empty pool), with `previous_questions` empty and with
`previous_questions = [7]`. -/
theorem play_quiz_empty_pool_witness :
    play_quiz [qA] (some []) (some 5) (fun _ => 0) = (QuizResult.successNoQuestion, 0)
    ∧ play_quiz [qA] (some [7]) (some 5) (fun _ => 0) = (QuizResult.crash, 0) :=
  ⟨(play_quiz_empty_pool_behavior [qA] 5 [] (fun _ => 0) (by decide)).1 rfl,
   (play_quiz_empty_pool_behavior [qA] 5 [7] (fun _ => 0) (by decide)).2 (by decide)⟩

/-- C10.  The completion check compares only lengths: with pool
`{1, 2}` and `previous_questions = [5, 6]` (same length, but ids foreign
to the pool), the handler answers `{success: true}` with no question
field even though no pool id is in `previous_questions` — and the single
executed draw had already selected an unseen pool question. -/
theorem play_quiz_completion_by_length_only :
    play_quiz [qA, qB] (some [5, 6]) (some 0) (fun _ => 0) = (QuizResult.successNoQuestion, 1)
    ∧ ([5, 6] : List Nat).length = (quizPool [qA, qB] 0).length
    ∧ (∀ q ∈ quizPool [qA, qB] 0, q.id ∉ ([5, 6] : List Nat))
    ∧ (∀ x ∈ ([5, 6] : List Nat), x ∉ (quizPool [qA, qB] 0).map Question.id) := by
  decide

/-- C4.  For every `POST /questions` body with at least one of the four
fields absent, the response is 422 AND the constructed record has been
inserted into the store before the null-field validation runs, so the
invalid record is persisted even though the response is an error. -/
theorem create_question_missing_field_422_and_persisted (db : List Question)
    (new_question new_answer : Option String) (new_difficulty new_category : Option Int)
    (page : Int)
    (h : new_question = none ∨ new_answer = none ∨ new_difficulty = none ∨ new_category = none) :
    (create_question db new_question new_answer new_difficulty new_category page).2
        = Except.error 422
    ∧ ({ id := freshId db, question := new_question, answer := new_answer,
          difficulty := new_difficulty, category := new_category } : Question)
        ∈ (create_question db new_question new_answer new_difficulty new_category page).1 := by
  have hval : create_question db new_question new_answer new_difficulty new_category page
      = (db ++ [{ id := freshId db, question := new_question, answer := new_answer,
                  difficulty := new_difficulty, category := new_category }],
         Except.error 422) := by
    simp only [create_question, create_question_try]
    rw [if_pos h]
  rw [hval]
  exact ⟨rfl, List.mem_append_right _ (List.mem_singleton.mpr rfl)⟩

/-- C4 witness: creating with the `question` field absent yields 422 and
the null-field row sits in the store. -/
theorem create_question_missing_field_witness :
    (create_question [] none (some "a") (some 1) (some 1) 1).2 = Except.error 422
    ∧ ({ id := freshId [], question := none, answer := some "a",
          difficulty := some 1, category := some 1 } : Question)
        ∈ (create_question [] none (some "a") (some 1) (some 1) 1).1 :=
  create_question_missing_field_422_and_persisted [] none (some "a") (some 1) (some 1) 1
    (Or.inl rfl)

/-- C8.  The search endpoint responds 404 exactly when `searchTerm` is
falsy (absent or the empty string); when the term is truthy and the
case-insensitive substring match selects no question, the response is a
success with an empty question list and `total_questions = 0`, not an
error. -/
theorem search_questions_spec (db : List Question) (searchTerm : Option String) (page : Int) :
    (search_questions db searchTerm page = Except.error 404
        ↔ searchTerm = none ∨ searchTerm = some "")
    ∧ (∀ t, searchTerm = some t → t ≠ "" → db.filter (ilikeMatch t) = [] →
        search_questions db searchTerm page
          = Except.ok { questions := [], total_questions := 0 }) := by
  constructor
  · cases searchTerm with
    | none => simp [search_questions]
    | some t =>
        by_cases ht : t = ""
        · subst ht
          simp [search_questions]
        · simp [search_questions, ht]
  · rintro t rfl hne hfil
    simp only [search_questions]
    rw [if_neg hne, hfil, paginate_questions_nil, List.length_nil]

/-- C8 witness: a term matching nothing in a one-question store returns
the empty success body. -/
theorem search_questions_spec_witness :
    search_questions [qA] (some "zz") 1 = Except.ok { questions := [], total_questions := 0 } :=
  (search_questions_spec [qA] (some "zz") 1).2 "zz" rfl (by decide) (by decide)

/-- C1 (code bug).  Evaluating the handler at the failing input: deleting
id 2 from a store whose only question has id 1 responds 422, not the
404 the claim (and the code's own `abort(404)`) intends — the `NotFound`
raised inside the `try:` block is swallowed by the bare `except:`, which
aborts with 422; the store is left unchanged. -/
theorem delete_question_missing_id_yields_422 :
    delete_question [qA] 2 1 = ([qA], Except.error 422) := by
  rfl
